import Mathlib

/-!
Shallow embedding of the adapter core of `effect-tanstack-query`
(`src/options.ts` and `src/runtime.tsx`): the translation layer between
Effect-shaped query/mutation descriptors and promise-shaped options for the
TanStack Query cache layer, plus the runtime provider lifecycle.

External collaborators (the `effect` runtime and the TanStack cache layer)
are modelled at the level of their consumed contracts (spec section 6):
`Exit`/`Cause` as tagged unions, promise settlement as a three-state value,
effect execution as running a step-counted computation to its exit, with an
optional abort signal that interrupts a run which has not yet finished.
-/

namespace EffectTQ

/-- Structured failure value of the effect runtime: an expected error, a
defect (an arbitrary thrown value, modelled opaquely as a string), an
interruption marker, or a sequential/parallel composition of causes.
Mirrors `Cause` from the `effect` package. -/
inductive Cause (E : Type) where
  | empty
  | fail (error : E)
  | die (defect : String)
  | interrupt
  | sequential (left right : Cause E)
  | parallel (left right : Cause E)
  deriving DecidableEq, Repr

/-- Expected-error payloads carried by a cause (`Cause.failures`). -/
def Cause.failures {E : Type} : Cause E → List E
  | Cause.empty => []
  | Cause.fail e => [e]
  | Cause.die _ => []
  | Cause.interrupt => []
  | Cause.sequential l r => Cause.failures l ++ Cause.failures r
  | Cause.parallel l r => Cause.failures l ++ Cause.failures r

/-- Whether a cause is or contains an interruption marker
(`Cause.isInterrupted`). -/
def Cause.isInterrupted {E : Type} : Cause E → Bool
  | Cause.empty => false
  | Cause.fail _ => false
  | Cause.die _ => false
  | Cause.interrupt => true
  | Cause.sequential l r => Cause.isInterrupted l || Cause.isInterrupted r
  | Cause.parallel l r => Cause.isInterrupted l || Cause.isInterrupted r

/-- Tagged outcome of running an effect to completion: `Success(value)` or
`Failure(cause)`. Mirrors `Exit` from the `effect` package. -/
inductive Exit (A E : Type) where
  | success (value : A)
  | failure (cause : Cause E)
  deriving DecidableEq, Repr

/-- A value thrown across the promise boundary in JavaScript: either a
structured `Cause` (what the translators throw) or any other value
(defects, parse errors), modelled opaquely as a string. -/
inductive Thrown (E : Type) where
  | cause (c : Cause E)
  | raw (value : String)
  deriving DecidableEq, Repr

/-- Mirrors the runtime test `Cause.isCause(e)` on a thrown value. -/
def Thrown.isCause {E : Type} : Thrown E → Bool
  | Thrown.cause _ => true
  | Thrown.raw _ => false

/-- Settlement state of a JavaScript promise: still pending, resolved with a
value, or rejected with a thrown value. -/
inductive PromiseResult (A : Type) (T : Type) where
  | pending
  | resolved (value : A)
  | rejected (thrownValue : T)
  deriving DecidableEq, Repr

/-- Mirrors `promise.then(handler)` for a handler that may itself throw: a
throwing handler turns a resolved promise into a rejected one. -/
def PromiseResult.andThen {A T B : Type} :
    PromiseResult A T → (A → Except T B) → PromiseResult B T
  | PromiseResult.pending, _ => PromiseResult.pending
  | PromiseResult.resolved a, f =>
    match f a with
    | Except.ok b => PromiseResult.resolved b
    | Except.error t => PromiseResult.rejected t
  | PromiseResult.rejected t, _ => PromiseResult.rejected t

/-- An effect closed over its requirements, modelled by how many scheduler
steps it needs before settling and the exit it settles to, together with the
tracing spans wrapped around it (observability only; spans never change the
result). Mirrors the consumed effect-runtime contract: an effect is a value,
safely re-runnable. -/
structure EffectM (A E : Type) where
  steps : Nat
  result : Exit A E
  spans : List String
  deriving DecidableEq, Repr

/-- Mirrors `Effect.withSpan(name, ...)`: attaches a tracing span and has no
functional impact on the outcome. -/
def Effect.withSpan {A E : Type} (name : String) (eff : EffectM A E) : EffectM A E :=
  { eff with spans := name :: eff.spans }

/-- An abort signal, modelled by the step time at which it fires
(`none` = it never fires). -/
def AbortSignal : Type := Option Nat

/-- Running an effect against an abort signal, per the consumed
effect-runtime contract: if the signal fires strictly before the effect has
finished its steps, the run settles with an interruption cause; otherwise it
settles with the effect's own exit. -/
def runToExit {A E : Type} (eff : EffectM A E) (signal : AbortSignal) : Exit A E :=
  match signal with
  | Option.none => eff.result
  | Option.some t => if t < eff.steps then Exit.failure Cause.interrupt else eff.result

/-- Process-wide memoization table of constructed capability instances,
keyed by layer identity, together with the id supply for fresh expensive
constructions. Mirrors the consumed `Layer.MemoMap` contract. -/
structure MemoMap where
  entries : List (Nat × Nat)
  nextId : Nat
  deriving DecidableEq, Repr

/-- Lookup of a layer's already-constructed capability instance. -/
def memoLookup : List (Nat × Nat) → Nat → Option Nat
  | [], _ => Option.none
  | (k, v) :: rest, layer => if k = layer then Option.some v else memoLookup rest layer

/-- Mirrors `Layer.makeMemoMap`: a fresh, empty memoization table. -/
def Layer.makeMemoMap : MemoMap :=
  { entries := [], nextId := 0 }

/-- Mirrors the module-level `const memoMap = Effect.runSync(Layer.makeMemoMap)`
in `src/runtime.tsx`: the process-wide table initialized once at module load. -/
def memoMap : MemoMap := Layer.makeMemoMap

/-- A constructed runtime: the layer it was built from and the identity of
the underlying constructed capability instance. -/
structure Runtime where
  layer : Nat
  capabilityId : Nat
  deriving DecidableEq, Repr

/-- Mirrors `ManagedRuntime.make(layer, memoMap)` per the consumed contract:
reuse the capability instance memoized for this layer if present, otherwise
perform one expensive construction and record it in the table. -/
def ManagedRuntime.make (layer : Nat) (memo : MemoMap) : Runtime × MemoMap :=
  match memoLookup memo.entries layer with
  | Option.some capId => ({ layer := layer, capabilityId := capId }, memo)
  | Option.none =>
    ({ layer := layer, capabilityId := memo.nextId },
     { entries := (layer, memo.nextId) :: memo.entries, nextId := memo.nextId + 1 })

/-- Mirrors `runtime.runPromiseExit(effect)` (no signal forwarded): per the
consumed bridge contract the returned promise always resolves with the exit;
it never hangs and never rejects. -/
def ManagedRuntime.runPromiseExit {A E : Type} (_runtime : Runtime) (eff : EffectM A E) :
    PromiseResult (Exit A E) (Thrown E) :=
  PromiseResult.resolved (runToExit eff Option.none)

/-- Mirrors `runAbortablePromiseExit(runtime, signal)(effect)` from
`src/options.ts`: run through `runtime.runPromiseExit(effect, { signal })`,
forwarding the abort signal into the bridge. -/
def runAbortablePromiseExit {A E : Type} (_runtime : Runtime) (signal : AbortSignal)
    (eff : EffectM A E) : PromiseResult (Exit A E) (Thrown E) :=
  PromiseResult.resolved (runToExit eff signal)

/-- A caller-supplied bidirectional schema: `encode` (rich → wire) and
`decode` (wire → rich), each of which may throw (`Schema.encodeSync` /
`Schema.decodeSync` throw a `ParseError`, modelled as a string). -/
structure Schema (A W : Type) where
  encode : A → Except String W
  decode : W → Except String A

/-- The `schema?` field of a query descriptor: either no schema is
configured — in which case the wire shape and the rich type are identical
(the source casts with `data as unknown as TQueryFnData`) — or a schema is
configured. -/
inductive SchemaConfig (A W : Type) where
  | idTrans (h : A = W)
  | config (s : Schema A W)

/-- The encoded value stored in the cache on success: `encode` when a schema
is configured, the value itself (cast to the wire type) when none is. -/
def SchemaConfig.encodeValue {A W : Type} : SchemaConfig A W → A → Except String W
  | SchemaConfig.idTrans h, a => Except.ok (cast h a)
  | SchemaConfig.config s, a => s.encode a

/-- The decoded value handed to the consumer on read: `decode` when a schema
is configured, the identity when none is. -/
def SchemaConfig.decodeValue {A W : Type} : SchemaConfig A W → W → Except String A
  | SchemaConfig.idTrans h, w => Except.ok (cast h.symm w)
  | SchemaConfig.config s, w => s.decode w

/-- An Effect-shaped query descriptor (`QueryOptions` from `src/options.ts`):
an effect-producing query function, an optional schema, and the
`consumeAbortSignal` flag. -/
structure QueryOptionsM (A E W : Type) where
  queryFn : EffectM A E
  schema : SchemaConfig A W
  consumeAbortSignal : Bool

/-- The promise-shaped options produced for the cache layer: a fetch
function taking the cache layer's per-fetch abort signal, and a `select`
transform applied on every read. -/
structure TranslatedQueryOptions (A E W : Type) where
  queryFn : AbortSignal → PromiseResult W (Thrown E)
  select : W → Except String A

/-- The bridge-run stage of the produced fetch function, from
`src/options.ts` lines 120-128: wrap the effect in a span named after the
hook flavor, then run it — forwarding `ctx.signal` into the bridge exactly
when `consumeAbortSignal` is set, and running without a signal otherwise. -/
def queryBridgeRun {A E W : Type} (options : QueryOptionsM A E W) (runtime : Runtime)
    (suspense : Bool) (ctxSignal : AbortSignal) : PromiseResult (Exit A E) (Thrown E) :=
  let spanned := Effect.withSpan (if suspense then "useSuspenseQuery" else "useQuery")
    options.queryFn
  if options.consumeAbortSignal then runAbortablePromiseExit runtime ctxSignal spanned
  else ManagedRuntime.runPromiseExit runtime spanned

/-- The `Exit.match` handler of the produced fetch function, from
`src/options.ts` lines 130-138: on success, encode through the schema if one
is configured (a failing `Schema.encodeSync` throws its parse error) else
pass the value through; on failure, throw the full structured cause. -/
def queryExitMatch {A E W : Type} (schema : SchemaConfig A W) :
    Exit A E → Except (Thrown E) W
  | Exit.success data =>
    match schema with
    | SchemaConfig.config s =>
      match s.encode data with
      | Except.ok wire => Except.ok wire
      | Except.error message => Except.error (Thrown.raw message)
    | SchemaConfig.idTrans h => Except.ok (cast h data)
  | Exit.failure cause => Except.error (Thrown.cause cause)

/-- Mirrors `toQueryOptions(options, runtime, suspense)` from
`src/options.ts`: the produced fetch function runs the spanned effect
through the bridge and unwraps the exit via `queryExitMatch`; the produced
`select` decodes through the schema if one is configured, else is the
identity. -/
def toQueryOptions {A E W : Type} (options : QueryOptionsM A E W) (runtime : Runtime)
    (suspense : Bool) : TranslatedQueryOptions A E W :=
  { queryFn := fun ctxSignal =>
      (queryBridgeRun options runtime suspense ctxSignal).andThen
        (queryExitMatch options.schema),
    select := fun data =>
      match options.schema with
      | SchemaConfig.config s => s.decode data
      | SchemaConfig.idTrans h => Except.ok (cast h.symm data) }

/-- An Effect-shaped mutation descriptor (`MutationOptions` from
`src/options.ts`): a variables-taking effect-producing function. -/
structure MutationOptionsM (A E V : Type) where
  mutationFn : V → EffectM A E

/-- The promise-shaped mutation options produced for the cache layer. -/
structure TranslatedMutationOptions (A E V : Type) where
  mutationFn : V → PromiseResult A (Thrown E)

/-- Mirrors `toMutationOptions(options, runtime)` from `src/options.ts`
lines 163-183: run the variables-applied effect under a span named
`useMutation` (no abort signal is ever forwarded for mutations), then on
success return the value unchanged — no encode step — and on failure throw
the full cause. -/
def toMutationOptions {A E V : Type} (options : MutationOptionsM A E V)
    (runtime : Runtime) : TranslatedMutationOptions A E V :=
  { mutationFn := fun vars =>
      (ManagedRuntime.runPromiseExit runtime
          (Effect.withSpan "useMutation" (options.mutationFn vars))).andThen
        (fun exit =>
          match exit with
          | Exit.success data => Except.ok data
          | Exit.failure cause => Except.error (Thrown.cause cause)) }

/-- Mirrors `useRuntime` from `src/runtime.tsx` lines 49-55: read the
ambient runtime from context (`null` when no provider encloses the caller)
and fail fast with a synchronous configuration error when it is absent. -/
def useRuntime (contextValue : Option Runtime) : Except String Runtime :=
  match contextValue with
  | Option.none => Except.error "useRuntime must be used within a RuntimeProvider"
  | Option.some runtime => Except.ok runtime

/-- What the cache layer's suspense-read primitive (`_useSuspenseQuery`) can
do when invoked: return a result, synchronously throw a still-pending
promise signal, or synchronously throw a resolved-failure value. -/
inductive SuspenseRead (Res E : Type) where
  | ok (result : Res)
  | throwPending
  | throwValue (thrownValue : Thrown E)
  deriving DecidableEq, Repr

/-- Two-armed result mirroring `Either.Either<R, L>` from the `effect`
package (right-biased: `right` is the success arm). -/
inductive EitherLR (L R : Type) where
  | left (l : L)
  | right (r : R)
  deriving DecidableEq, Repr

/-- What a hook invocation does at the component boundary: return a value,
or re-raise the pending-promise suspension signal. -/
inductive HookOut (Res E : Type) where
  | ret (value : EitherLR (Cause E) Res)
  | reraisePending
  deriving DecidableEq, Repr

/-- Mirrors the ternary `Cause.isCause(e) ? e : Cause.die(e)` applied to a
caught thrown value in `useSuspenseQuery`: a value passing `Cause.isCause`
is used as the cause unchanged, anything else is wrapped in `Cause.die`. -/
def coerceToCause {E : Type} : Thrown E → Cause E
  | Thrown.cause c => c
  | Thrown.raw value => Cause.die value

/-- The try/catch core of `useSuspenseQuery` from `src/runtime.tsx` lines
88-98: a normal read returns `Either.right(query)`; a caught `Promise` is
re-thrown unchanged; any other caught value is returned as
`Either.left(Cause.isCause(e) ? e : Cause.die(e))`. -/
def suspenseTranslate {Res E : Type} : SuspenseRead Res E → HookOut Res E
  | SuspenseRead.ok r => HookOut.ret (EitherLR.right r)
  | SuspenseRead.throwPending => HookOut.reraisePending
  | SuspenseRead.throwValue t => HookOut.ret (EitherLR.left (coerceToCause t))

/-- One step of component code running after the hook returned: it either
produces a rendered value or raises a defect of its own. -/
inductive RenderStep (V : Type) where
  | value (v : V)
  | raise (defect : String)
  deriving DecidableEq, Repr

/-- Outcome of rendering a component around the hook: a rendered value, a
propagated suspension, or a defect thrown past the hook to an enclosing
failure boundary. -/
inductive RenderOut (V : Type) where
  | rendered (v : V)
  | suspended
  | threw (defect : String)
  deriving DecidableEq, Repr

/-- A component body around the hook: if the hook re-raises the pending
signal the whole render suspends; if the hook returns, the rest of the
component runs on the returned value, and anything it throws propagates
unchanged (the hook's catch scope does not cover it). -/
def renderWith {Res E V : Type} (hook : HookOut Res E)
    (rest : EitherLR (Cause E) Res → RenderStep V) : RenderOut V :=
  match hook with
  | HookOut.reraisePending => RenderOut.suspended
  | HookOut.ret x =>
    match rest x with
    | RenderStep.value v => RenderOut.rendered v
    | RenderStep.raise d => RenderOut.threw d

/-- Mirrors `useQuery` from `src/runtime.tsx` lines 57-65: obtain the
ambient runtime (failing fast without a provider), translate the options
with `suspense = false`, and delegate to the cache layer's standard query
primitive. -/
def useQuery {A E W Q : Type} (contextValue : Option Runtime)
    (options : QueryOptionsM A E W)
    (cacheUseQuery : TranslatedQueryOptions A E W → Q) : Except String Q :=
  match useRuntime contextValue with
  | Except.error message => Except.error message
  | Except.ok runtime => Except.ok (cacheUseQuery (toQueryOptions options runtime false))

/-- Mirrors `useSuspenseQuery` from `src/runtime.tsx` lines 67-99: obtain
the ambient runtime (failing fast without a provider), translate the
options with `suspense = true`, invoke the cache layer's suspense-read
primitive, and translate its outcome through the try/catch core. -/
def useSuspenseQuery {A E W Res : Type} (contextValue : Option Runtime)
    (options : QueryOptionsM A E W)
    (cacheRead : TranslatedQueryOptions A E W → SuspenseRead Res E) :
    Except String (HookOut Res E) :=
  match useRuntime contextValue with
  | Except.error message => Except.error message
  | Except.ok runtime =>
    Except.ok (suspenseTranslate (cacheRead (toQueryOptions options runtime true)))

/-- Mirrors `useMutation` from `src/runtime.tsx` lines 101-114: obtain the
ambient runtime (failing fast without a provider), translate the options,
and delegate to the cache layer's mutation primitive. -/
def useMutation {A E V M : Type} (contextValue : Option Runtime)
    (options : MutationOptionsM A E V)
    (cacheUseMutation : TranslatedMutationOptions A E V → M) : Except String M :=
  match useRuntime contextValue with
  | Except.error message => Except.error message
  | Except.ok runtime => Except.ok (cacheUseMutation (toMutationOptions options runtime))

/-- React lifecycle events observed by one `RuntimeProvider` instance:
a render pass, a flush of its effect (after a commit), a flush of its
currently registered effect cleanup (as in StrictMode's simulated unmount
before re-running the effect), and the final unmount (which runs the
registered cleanup, if any). -/
inductive PEvent where
  | render
  | effectFlush
  | cleanupFlush
  | unmount
  deriving DecidableEq, Repr

/-- Observable state of one `RuntimeProvider` instance from `src/runtime.tsx`
lines 116-133: whether the `useMemo(..., [])` cache holds the runtime, how
many times `ManagedRuntime.make` ran for this instance, the `mountedRef`
flag, whether the effect's returned cleanup (which calls
`runtime.dispose()`) is currently registered, and how many times
`runtime.dispose()` has run. -/
structure ProviderState where
  runtimeBuilt : Bool
  constructions : Nat
  mountedRef : Bool
  cleanupRegistered : Bool
  disposeCount : Nat
  deriving DecidableEq, Repr

/-- Provider instance state before any render. -/
def initialProviderState : ProviderState :=
  { runtimeBuilt := false, constructions := 0, mountedRef := false,
    cleanupRegistered := false, disposeCount := 0 }

/-- One lifecycle event applied to the provider state, following
`src/runtime.tsx` lines 116-133. `render`: `useMemo` with an empty
dependency list constructs the runtime on the first render only. The effect
has dependency list `[runtime]`, which never changes, so React flushes it
once per mount cycle; its body (lines 121-130): on its first run it only
sets `mountedRef` and returns no cleanup; on every later run it returns the
cleanup that calls `runtime.dispose()`. `cleanupFlush` and `unmount` run
the currently registered cleanup, if any. -/
def providerStep (s : ProviderState) : PEvent → ProviderState
  | PEvent.render =>
    if s.runtimeBuilt then s
    else { s with runtimeBuilt := true, constructions := s.constructions + 1 }
  | PEvent.effectFlush =>
    if s.mountedRef then { s with cleanupRegistered := true }
    else { s with mountedRef := true, cleanupRegistered := false }
  | PEvent.cleanupFlush =>
    if s.cleanupRegistered then
      { s with disposeCount := s.disposeCount + 1, cleanupRegistered := false }
    else s
  | PEvent.unmount =>
    if s.cleanupRegistered then
      { s with disposeCount := s.disposeCount + 1, cleanupRegistered := false }
    else s

/-- The provider state after a sequence of lifecycle events. -/
def runTrace (events : List PEvent) : ProviderState :=
  events.foldl providerStep initialProviderState

/-! Concrete fixtures used by the witness theorems. -/

/-- A lawful concrete schema on naturals: `encode` shifts up by one,
`decode` rejects zero and shifts back down. -/
def natSchema : Schema Nat Nat :=
  { encode := fun a => Except.ok (a + 1),
    decode := fun w => if w = 0 then Except.error "zero is not a valid wire value"
      else Except.ok (w - 1) }

/-- A schema whose `encode` always throws a parse error. -/
def badSchema : Schema Nat Nat :=
  { encode := fun _ => Except.error "encode parse failure",
    decode := fun _ => Except.error "decode parse failure" }

/-- A concrete runtime handle. -/
def rt0 : Runtime := { layer := 0, capabilityId := 0 }

/-- An effect taking three steps and succeeding with 4. -/
def succeedEff : EffectM Nat Nat := { steps := 3, result := Exit.success 4, spans := [] }

/-- An effect taking three steps and failing with declared error 7. -/
def failEff : EffectM Nat Nat :=
  { steps := 3, result := Exit.failure (Cause.fail 7), spans := [] }

/-- A query descriptor with the lawful schema configured. -/
def qOptsSchema : QueryOptionsM Nat Nat Nat :=
  { queryFn := succeedEff, schema := SchemaConfig.config natSchema,
    consumeAbortSignal := false }

/-- A query descriptor with no schema configured. -/
def qOptsId : QueryOptionsM Nat Nat Nat :=
  { queryFn := succeedEff, schema := SchemaConfig.idTrans rfl,
    consumeAbortSignal := false }

/-- A query descriptor that fails and has no schema. -/
def qOptsFail : QueryOptionsM Nat Nat Nat :=
  { queryFn := failEff, schema := SchemaConfig.idTrans rfl,
    consumeAbortSignal := false }

/-- A query descriptor that consumes the abort signal. -/
def qOptsAbort : QueryOptionsM Nat Nat Nat :=
  { queryFn := succeedEff, schema := SchemaConfig.idTrans rfl,
    consumeAbortSignal := true }

/-- A query descriptor whose configured schema throws on encode. -/
def qOptsBadSchema : QueryOptionsM Nat Nat Nat :=
  { queryFn := succeedEff, schema := SchemaConfig.config badSchema,
    consumeAbortSignal := false }

/-- A mutation descriptor whose effect succeeds with `vars + 2`. -/
def mOptsOk : MutationOptionsM Nat Nat Nat :=
  { mutationFn := fun vars => { steps := 1, result := Exit.success (vars + 2), spans := [] } }

/-- A mutation descriptor whose effect fails with declared error 9. -/
def mOptsFail : MutationOptionsM Nat Nat Nat :=
  { mutationFn := fun _ => { steps := 1, result := Exit.failure (Cause.fail 9), spans := [] } }

/-! Helper lemmas about the promise and exit-unwrapping stages. -/

theorem PromiseResult_andThen_resolved_ok {A T B : Type} (a : A) (f : A → Except T B)
    (b : B) (h : f a = Except.ok b) :
    (PromiseResult.resolved a).andThen f = PromiseResult.resolved b := by
  simp [PromiseResult.andThen, h]

theorem PromiseResult_andThen_resolved_error {A T B : Type} (a : A) (f : A → Except T B)
    (t : T) (h : f a = Except.error t) :
    (PromiseResult.resolved a).andThen f = PromiseResult.rejected t := by
  simp [PromiseResult.andThen, h]

theorem queryExitMatch_success_encode {A E W : Type} (sc : SchemaConfig A W) (v : A)
    (w : W) (h : SchemaConfig.encodeValue sc v = Except.ok w) :
    queryExitMatch sc (Exit.success v : Exit A E) = Except.ok w := by
  cases sc with
  | idTrans hAW =>
    simp only [SchemaConfig.encodeValue, Except.ok.injEq] at h
    simp [queryExitMatch, h]
  | config s =>
    simp only [SchemaConfig.encodeValue] at h
    simp [queryExitMatch, h]

theorem queryExitMatch_failure {A E W : Type} (sc : SchemaConfig A W) (c : Cause E) :
    queryExitMatch sc (Exit.failure c : Exit A E) = Except.error (Thrown.cause c) := by
  cases sc <;> rfl

theorem toQueryOptions_queryFn_eq {A E W : Type} (options : QueryOptionsM A E W)
    (runtime : Runtime) (suspense : Bool) (sig : AbortSignal) :
    (toQueryOptions options runtime suspense).queryFn sig
      = (queryBridgeRun options runtime suspense sig).andThen
          (queryExitMatch options.schema) := rfl

theorem toQueryOptions_select_eq {A E W : Type} (options : QueryOptionsM A E W)
    (runtime : Runtime) (suspense : Bool) (w : W) :
    (toQueryOptions options runtime suspense).select w
      = SchemaConfig.decodeValue options.schema w := by
  obtain ⟨qf, sc, cas⟩ := options
  cases sc <;> rfl

/-! Claim theorems. -/

/-- C1: For every descriptor and every effect run that succeeds with value
`v`, the fetch function produced by `toQueryOptions` resolves (never
rejects); the resolved value stored in the cache is the schema-encoded
value when the descriptor has a schema and `v` itself when it has none, and
the value the consumer ultimately observes after `select` is `v`
(post-decode). The encode/decode hypotheses are the lawfulness of the
caller-supplied schema at `v`, which the spec requires of every schema. -/
theorem toQueryOptions_success_resolves (A E W : Type) (options : QueryOptionsM A E W)
    (runtime : Runtime) (suspense : Bool) (sig : AbortSignal) (v : A) (w : W)
    (hrun : queryBridgeRun options runtime suspense sig
      = PromiseResult.resolved (Exit.success v))
    (henc : SchemaConfig.encodeValue options.schema v = Except.ok w)
    (hdec : SchemaConfig.decodeValue options.schema w = Except.ok v) :
    (toQueryOptions options runtime suspense).queryFn sig = PromiseResult.resolved w
    ∧ (toQueryOptions options runtime suspense).select w = Except.ok v := by
  refine ⟨?_, ?_⟩
  · rw [toQueryOptions_queryFn_eq, hrun]
    exact PromiseResult_andThen_resolved_ok _ _ _
      (queryExitMatch_success_encode _ _ _ henc)
  · rw [toQueryOptions_select_eq]
    exact hdec

/-- C1 witness: the schema descriptor fixture succeeds with 4, the cache
stores the encoded value 5, and the consumer reads back 4. -/
theorem toQueryOptions_success_resolves_w :
    (toQueryOptions qOptsSchema rt0 false).queryFn Option.none = PromiseResult.resolved 5
    ∧ (toQueryOptions qOptsSchema rt0 false).select 5 = Except.ok 4 :=
  toQueryOptions_success_resolves Nat Nat Nat qOptsSchema rt0 false Option.none 4 5
    (by decide) rfl rfl

/-- C2: For every descriptor and every effect run that fails with a cause,
the fetch function produced by `toQueryOptions` rejects by throwing the full
structured cause (a `Thrown.cause`, not a stringified error), and for a
declared error `e` the expected-error payload of the thrown cause recovers
`e` exactly. -/
theorem toQueryOptions_failure_rejects (A E W : Type) (options : QueryOptionsM A E W)
    (runtime : Runtime) (suspense : Bool) (sig : AbortSignal) (e : E) :
    (∀ c : Cause E, queryBridgeRun options runtime suspense sig
        = PromiseResult.resolved (Exit.failure c) →
      (toQueryOptions options runtime suspense).queryFn sig
        = PromiseResult.rejected (Thrown.cause c))
    ∧ Thrown.isCause (Thrown.cause (Cause.fail e) : Thrown E) = true
    ∧ Cause.failures (Cause.fail e) = [e] := by
  refine ⟨fun c hrun => ?_, rfl, rfl⟩
  rw [toQueryOptions_queryFn_eq, hrun]
  exact PromiseResult_andThen_resolved_error _ _ _ (queryExitMatch_failure _ _)

/-- C2 witness: the failing fixture rejects with the structured cause whose
expected-error payload is exactly 7. -/
theorem toQueryOptions_failure_rejects_w :
    (toQueryOptions qOptsFail rt0 false).queryFn Option.none
      = PromiseResult.rejected (Thrown.cause (Cause.fail 7))
    ∧ Cause.failures (Cause.fail (7 : Nat)) = [7] :=
  ⟨(toQueryOptions_failure_rejects Nat Nat Nat qOptsFail rt0 false Option.none 7).1
      (Cause.fail 7) (by decide),
   (toQueryOptions_failure_rejects Nat Nat Nat qOptsFail rt0 false Option.none 7).2.2⟩

/-- C3: For every outcome of the underlying suspense-read primitive,
`useSuspenseQuery` never lets a resolved failure propagate as an exception
across the component boundary: it returns `Right(result)` on success and
`Left(cause)` on a thrown resolved failure (wrapping a thrown non-cause in
`Cause.die`), it always re-throws a still-pending promise signal unchanged,
and a genuine defect thrown outside its translation boundary (by component
code after the hook returned) propagates to an enclosing failure boundary
unchanged. -/
theorem useSuspenseQuery_boundary (Res E V : Type) :
    (∀ r : Res, @suspenseTranslate Res E (SuspenseRead.ok r)
      = HookOut.ret (EitherLR.right r))
    ∧ (@suspenseTranslate Res E SuspenseRead.throwPending = HookOut.reraisePending)
    ∧ (∀ c : Cause E, @suspenseTranslate Res E (SuspenseRead.throwValue (Thrown.cause c))
      = HookOut.ret (EitherLR.left c))
    ∧ (∀ d : String, @suspenseTranslate Res E (SuspenseRead.throwValue (Thrown.raw d))
      = HookOut.ret (EitherLR.left (Cause.die d)))
    ∧ (∀ (read : SuspenseRead Res E) (x : EitherLR (Cause E) Res)
        (rest : EitherLR (Cause E) Res → RenderStep V) (d : String),
      suspenseTranslate read = HookOut.ret x → rest x = RenderStep.raise d →
      renderWith (suspenseTranslate read) rest = RenderOut.threw d) := by
  refine ⟨fun r => rfl, rfl, fun c => rfl, fun d => rfl, fun read x rest d h1 h2 => ?_⟩
  rw [h1]
  simp [renderWith, h2]

/-- C3 witness: a thrown cause comes back as a left value, and a defect
raised by the component after a successful hook return propagates. -/
theorem useSuspenseQuery_boundary_w :
    @suspenseTranslate Nat Nat (SuspenseRead.throwValue (Thrown.cause (Cause.fail 7)))
      = HookOut.ret (EitherLR.left (Cause.fail 7))
    ∧ renderWith (@suspenseTranslate Nat Nat (SuspenseRead.ok 1))
        (fun _ => (RenderStep.raise "boom" : RenderStep Nat)) = RenderOut.threw "boom" :=
  ⟨(useSuspenseQuery_boundary Nat Nat Nat).2.2.1 (Cause.fail 7),
   (useSuspenseQuery_boundary Nat Nat Nat).2.2.2.2 (SuspenseRead.ok 1) (EitherLR.right 1)
     (fun _ => (RenderStep.raise "boom" : RenderStep Nat)) "boom" rfl rfl⟩

/-- C4: For every descriptor with a configured schema satisfying the
round-trip law, a successful write-then-read cycle through the produced
options stores the encoded wire value and reads back the original rich
value; for every descriptor without a schema, the fetch result and the
select output are both the identity on the produced value. -/
theorem roundtrip_cache_cycle (A E W : Type) (options : QueryOptionsM A E W)
    (runtime : Runtime) (suspense : Bool) (sig : AbortSignal) :
    (∀ (s : Schema A W) (x : A) (w : W),
      options.schema = SchemaConfig.config s →
      (∀ y u, s.encode y = Except.ok u → s.decode u = Except.ok y) →
      queryBridgeRun options runtime suspense sig
        = PromiseResult.resolved (Exit.success x) →
      s.encode x = Except.ok w →
      (toQueryOptions options runtime suspense).queryFn sig = PromiseResult.resolved w
      ∧ (toQueryOptions options runtime suspense).select w = Except.ok x)
    ∧ (∀ (h : A = W) (x : A),
      options.schema = SchemaConfig.idTrans h →
      queryBridgeRun options runtime suspense sig
        = PromiseResult.resolved (Exit.success x) →
      (toQueryOptions options runtime suspense).queryFn sig
        = PromiseResult.resolved (cast h x)
      ∧ (toQueryOptions options runtime suspense).select (cast h x) = Except.ok x) := by
  constructor
  · intro s x w hs hrt hrun henc
    refine ⟨?_, ?_⟩
    · rw [toQueryOptions_queryFn_eq, hrun]
      refine PromiseResult_andThen_resolved_ok _ _ _
        (queryExitMatch_success_encode _ _ _ ?_)
      rw [hs]
      exact henc
    · rw [toQueryOptions_select_eq, hs]
      exact hrt x w henc
  · intro h x hs hrun
    refine ⟨?_, ?_⟩
    · rw [toQueryOptions_queryFn_eq, hrun]
      refine PromiseResult_andThen_resolved_ok _ _ _
        (queryExitMatch_success_encode _ _ _ ?_)
      rw [hs]
      rfl
    · rw [toQueryOptions_select_eq, hs]
      subst h
      rfl

/-- C4 witness: the lawful schema fixture round-trips 4 through the cache
via the encoded value 5, and the no-schema fixture passes 4 through both
stages unchanged. -/
theorem roundtrip_cache_cycle_w :
    ((toQueryOptions qOptsSchema rt0 false).queryFn Option.none = PromiseResult.resolved 5
      ∧ (toQueryOptions qOptsSchema rt0 false).select 5 = Except.ok 4)
    ∧ ((toQueryOptions qOptsId rt0 false).queryFn Option.none = PromiseResult.resolved 4
      ∧ (toQueryOptions qOptsId rt0 false).select 4 = Except.ok 4) :=
  ⟨(roundtrip_cache_cycle Nat Nat Nat qOptsSchema rt0 false Option.none).1 natSchema 4 5
      rfl
      (fun y u hyu => by
        simp only [natSchema] at hyu
        injection hyu with h
        subst h
        simp [natSchema])
      (by decide) rfl,
   (roundtrip_cache_cycle Nat Nat Nat qOptsId rt0 false Option.none).2 rfl 4 rfl
     (by decide)⟩

/-- C6: For every descriptor with `consumeAbortSignal` set, the cache
layer's per-fetch abort signal is forwarded into the execution bridge, and
firing the signal mid-run makes the bridge promise resolve — neither hang,
nor reject, nor resolve as a plain success — with an exit whose cause is
the interruption marker; for every descriptor where `consumeAbortSignal` is
false, the signal is not forwarded: the bridge run is independent of it. -/
theorem abortSignal_forwarding (A E W : Type) (options : QueryOptionsM A E W)
    (runtime : Runtime) (suspense : Bool) (t : Nat) :
    (options.consumeAbortSignal = true → t < options.queryFn.steps →
      queryBridgeRun options runtime suspense (Option.some t)
        = PromiseResult.resolved (Exit.failure Cause.interrupt))
    ∧ (options.consumeAbortSignal = false → ∀ sig : AbortSignal,
      queryBridgeRun options runtime suspense sig
        = queryBridgeRun options runtime suspense Option.none)
    ∧ Cause.isInterrupted (Cause.interrupt : Cause E) = true := by
  refine ⟨fun hc ht => ?_, fun hc sig => ?_, rfl⟩
  · simp [queryBridgeRun, hc, runAbortablePromiseExit, runToExit, Effect.withSpan, ht]
  · simp [queryBridgeRun, hc]

/-- C6 witness: firing the signal at step 1 of a three-step effect with
`consumeAbortSignal` set yields a resolved interruption exit, while the
fixture without the flag ignores the same signal. -/
theorem abortSignal_forwarding_w :
    queryBridgeRun qOptsAbort rt0 false (Option.some 1)
      = PromiseResult.resolved (Exit.failure Cause.interrupt)
    ∧ queryBridgeRun qOptsSchema rt0 false (Option.some 1)
      = queryBridgeRun qOptsSchema rt0 false Option.none :=
  ⟨(abortSignal_forwarding Nat Nat Nat qOptsAbort rt0 false 1).1 rfl (by decide),
   (abortSignal_forwarding Nat Nat Nat qOptsSchema rt0 false 1).2.1 rfl (Option.some 1)⟩

/-- C7: For every mutation descriptor and every variables value, the mutate
function produced by `toMutationOptions` applies the same span-wrapping
(the `useMutation` span) and outcome-unwrapping discipline as the query
translator with no schema re-shaping: on success it resolves with the
success value unchanged (no encode step), and on failure it rejects by
throwing the full cause. -/
theorem toMutationOptions_discipline (A E V : Type) (options : MutationOptionsM A E V)
    (runtime : Runtime) (vars : V) :
    (∀ a : A, (options.mutationFn vars).result = Exit.success a →
      (toMutationOptions options runtime).mutationFn vars = PromiseResult.resolved a)
    ∧ (∀ c : Cause E, (options.mutationFn vars).result = Exit.failure c →
      (toMutationOptions options runtime).mutationFn vars
        = PromiseResult.rejected (Thrown.cause c))
    ∧ (Effect.withSpan "useMutation" (options.mutationFn vars)).spans
      = "useMutation" :: (options.mutationFn vars).spans := by
  refine ⟨fun a ha => ?_, fun c hc => ?_, rfl⟩
  · simp [toMutationOptions, ManagedRuntime.runPromiseExit, runToExit, Effect.withSpan,
      ha, PromiseResult.andThen]
  · simp [toMutationOptions, ManagedRuntime.runPromiseExit, runToExit, Effect.withSpan,
      hc, PromiseResult.andThen]

/-- C7 witness: the succeeding mutation fixture resolves with its value
unchanged and the failing one rejects with the full cause. -/
theorem toMutationOptions_discipline_w :
    (toMutationOptions mOptsOk rt0).mutationFn 5 = PromiseResult.resolved 7
    ∧ (toMutationOptions mOptsFail rt0).mutationFn 5
      = PromiseResult.rejected (Thrown.cause (Cause.fail 9)) :=
  ⟨(toMutationOptions_discipline Nat Nat Nat mOptsOk rt0 5).1 7 (by decide),
   (toMutationOptions_discipline Nat Nat Nat mOptsFail rt0 5).2.1 (Cause.fail 9)
     (by decide)⟩

/-- C8: Every hook invocation (`useQuery`, `useSuspenseQuery`,
`useMutation`) made without an enclosing provider fails fast by
synchronously raising the configuration error, never silently defaulting;
with a provider present each hook uses that provider's runtime and
delegates to the cache layer on the translated options. -/
theorem hooks_failfast (A E W V Q M Res : Type) (options : QueryOptionsM A E W)
    (moptions : MutationOptionsM A E V) (rt : Runtime)
    (cacheQ : TranslatedQueryOptions A E W → Q)
    (cacheS : TranslatedQueryOptions A E W → SuspenseRead Res E)
    (cacheM : TranslatedMutationOptions A E V → M) :
    useQuery Option.none options cacheQ
      = Except.error "useRuntime must be used within a RuntimeProvider"
    ∧ useSuspenseQuery Option.none options cacheS
      = Except.error "useRuntime must be used within a RuntimeProvider"
    ∧ useMutation Option.none moptions cacheM
      = Except.error "useRuntime must be used within a RuntimeProvider"
    ∧ useRuntime Option.none
      = (Except.error "useRuntime must be used within a RuntimeProvider"
          : Except String Runtime)
    ∧ useRuntime (Option.some rt) = Except.ok rt
    ∧ useQuery (Option.some rt) options cacheQ
      = Except.ok (cacheQ (toQueryOptions options rt false))
    ∧ useSuspenseQuery (Option.some rt) options cacheS
      = Except.ok (suspenseTranslate (cacheS (toQueryOptions options rt true)))
    ∧ useMutation (Option.some rt) moptions cacheM
      = Except.ok (cacheM (toMutationOptions moptions rt)) :=
  ⟨rfl, rfl, rfl, rfl, rfl, rfl, rfl, rfl⟩

/-- C9: Two runtime constructions from an identical layer against the same
memoization table share the same underlying constructed capability instance
and the second construction performs no new expensive construction (the
table is unchanged); in particular this holds for the module-level table
initialized once at load. -/
theorem memoMap_sharing (layer : Nat) (memo : MemoMap) :
    ((ManagedRuntime.make layer ((ManagedRuntime.make layer memo).2)).1).capabilityId
      = ((ManagedRuntime.make layer memo).1).capabilityId
    ∧ (ManagedRuntime.make layer ((ManagedRuntime.make layer memo).2)).2
      = (ManagedRuntime.make layer memo).2
    ∧ ((ManagedRuntime.make layer ((ManagedRuntime.make layer memoMap).2)).1).capabilityId
      = ((ManagedRuntime.make layer memoMap).1).capabilityId := by
  have key : ∀ m : MemoMap,
      ((ManagedRuntime.make layer ((ManagedRuntime.make layer m).2)).1).capabilityId
        = ((ManagedRuntime.make layer m).1).capabilityId
      ∧ (ManagedRuntime.make layer ((ManagedRuntime.make layer m).2)).2
        = (ManagedRuntime.make layer m).2 := by
    intro m
    cases h : memoLookup m.entries layer with
    | some capId => simp [ManagedRuntime.make, h]
    | none => simp [ManagedRuntime.make, h, memoLookup]
  exact ⟨(key memo).1, (key memo).2, (key memoMap).1⟩

/-- C5 evaluation: a normal production lifecycle — one mount, one effect
flush after the commit, then unmount — constructs the runtime exactly once
but never disposes it, because the first effect run only sets `mountedRef`
and registers no cleanup; only when the effect is cleaned up and re-flushed
(StrictMode's simulated unmount/remount probe) does the final unmount
dispose, exactly once; a mount/unmount pair that never commits does not
dispose; repeated renders construct only once. -/
theorem provider_lifecycle_eval :
    (runTrace [PEvent.render, PEvent.effectFlush, PEvent.unmount]).constructions = 1
    ∧ (runTrace [PEvent.render, PEvent.effectFlush, PEvent.unmount]).disposeCount = 0
    ∧ (runTrace [PEvent.render, PEvent.effectFlush, PEvent.cleanupFlush,
        PEvent.effectFlush, PEvent.unmount]).disposeCount = 1
    ∧ (runTrace [PEvent.render, PEvent.unmount]).disposeCount = 0
    ∧ (runTrace [PEvent.render, PEvent.render, PEvent.render,
        PEvent.effectFlush, PEvent.unmount]).constructions = 1 := by
  decide

/-- C10: For a descriptor with a configured schema whose encode throws on a
successful result value, the fetch function produced by `toQueryOptions`
rejects with the thrown parse error rather than a structured cause, so the
cache layer's error channel — declared as `Cause<TError>` — receives a
value that is not a cause. -/
theorem encodeFailure_rejects_raw (A E W : Type) (options : QueryOptionsM A E W)
    (runtime : Runtime) (suspense : Bool) (sig : AbortSignal) (v : A) (s : Schema A W)
    (msg : String)
    (hs : options.schema = SchemaConfig.config s)
    (hrun : queryBridgeRun options runtime suspense sig
      = PromiseResult.resolved (Exit.success v))
    (henc : s.encode v = Except.error msg) :
    (toQueryOptions options runtime suspense).queryFn sig
      = PromiseResult.rejected (Thrown.raw msg)
    ∧ Thrown.isCause (Thrown.raw msg : Thrown E) = false := by
  refine ⟨?_, rfl⟩
  rw [toQueryOptions_queryFn_eq, hrun, hs]
  refine PromiseResult_andThen_resolved_error _ _ _ ?_
  simp [queryExitMatch, henc]

/-- C10 witness: the fixture with the always-throwing encode rejects with
the raw parse error, which is not a cause. -/
theorem encodeFailure_rejects_raw_w :
    (toQueryOptions qOptsBadSchema rt0 false).queryFn Option.none
      = PromiseResult.rejected (Thrown.raw "encode parse failure")
    ∧ Thrown.isCause (Thrown.raw "encode parse failure" : Thrown Nat) = false :=
  encodeFailure_rejects_raw Nat Nat Nat qOptsBadSchema rt0 false Option.none 4 badSchema
    "encode parse failure" rfl (by decide) rfl

end EffectTQ
